import Mathlib

/-!
Verification of the Mephisto relay server (router.js style node server).

The embedding below is a shallow model of the single source file of the
repository: the module-level mutable variables become fields of a
`ServerState` record, JS objects used as string-keyed maps become
association lists (JS object keys are unique; insertion order is
preserved, and assignment to an existing key keeps its position, which
is exactly what `setA` does), and the socket handlers become pure
functions from state to state plus a list of observable effects.
A JS exception raised inside a handler is modelled by the `error` field
of `HandlerResult`: mutations performed before the throw persist in
`state`, mutations after it are lost, matching JS semantics.
-/

/-! ## Constants from the source -/

def STATUS_INIT : String := "init"

def STATUS_CONNECTED : String := "connected"

def STATUS_DISCONNECTED : String := "disconnect"

def STATUS_DONE : String := "done"

def SYSTEM_SOCKET_ID : String := "mephisto"

def SERVER_SOCKET_ID : String := "mephisto_server"

def PACKET_TYPE_REQUEST_AGENT_STATUS : String := "request_status"

def PACKET_TYPE_RETURN_AGENT_STATUS : String := "return_status"

def PACKET_TYPE_INIT_DATA : String := "initial_data_send"

def PACKET_TYPE_AGENT_ACTION : String := "agent_action"

def PACKET_TYPE_NEW_AGENT : String := "register_agent"

def PACKET_TYPE_NEW_WORKER : String := "register_worker"

def PACKET_TYPE_GET_INIT_DATA : String := "init_data_request"

def PACKET_TYPE_ALIVE : String := "alive"

def PACKET_TYPE_PROVIDER_DETAILS : String := "provider_details"

def PACKET_TYPE_SUBMIT_ONBOARDING : String := "submit_onboarding"

/-! ## Data model -/

/-- A websocket connection. `readyState = 3` is the CLOSED state of the
ws library, the value tested by `_send_message`. -/
structure Socket where
  sid : String
  readyState : Nat
deriving Repr, DecidableEq

/-- The wire unit. `data` is a JS object; the fields the server ever
reads or writes from `data` are string valued, so it is modelled as a
string-keyed association list. -/
structure Packet where
  packet_type : String
  sender_id : String
  receiver_id : String
  data : List (String × String)
deriving Repr, DecidableEq

/-- `class LocalAgentState`: per-agent status and outbound queue. -/
structure LocalAgentState where
  status : String
  agent_id : String
  unsent_messages : List Packet
deriving Repr, DecidableEq

/-! ## Association list helpers (JS object with string keys) -/

def lookupA {α : Type} : List (String × α) → String → Option α
  | [], _ => none
  | (k, v) :: rest, key => if k = key then some v else lookupA rest key

/-- JS assignment `obj[key] = v`: replaces in place when the key exists,
appends otherwise. -/
def setA {α : Type} : List (String × α) → String → α → List (String × α)
  | [], key, v => [(key, v)]
  | (k, w) :: rest, key, v =>
    if k = key then (k, v) :: rest else (k, w) :: setA rest key v

/-- JS `delete obj[key]`. -/
def eraseA {α : Type} : List (String × α) → String → List (String × α)
  | [], _ => []
  | (k, v) :: rest, key => if k = key then rest else (k, v) :: eraseA rest key

/-- Reading a possibly absent field of a packet's `data` object. -/
def jget (data : List (String × String)) (k : String) : Option String :=
  lookupA data k

/-! ## Server state: the module-level variables of the source -/

/-- The module-level mutable variables.  HTTP response handles (the
`res` objects parked in `pending_provider_requests`) are opaque to the
server, so they are modelled by a `Nat` identifier.
`socket_id_to_agent` stores, for a socket id, the agent record bound to
it; in JS both maps alias one shared object, which the model represents
by keying the authoritative record store `agent_id_to_agent` by the
agent id that every record carries. -/
structure ServerState where
  agent_id_to_socket : List (String × Socket)
  socket_id_to_agent : List (String × String)
  mephisto_message_queue : List Packet
  main_thread_timeout : Option Nat
  mephisto_socket : Option Socket
  agent_id_to_agent : List (String × LocalAgentState)
  pending_provider_requests : List (String × Nat)
deriving Repr, DecidableEq

def empty_state : ServerState :=
  { agent_id_to_socket := []
    socket_id_to_agent := []
    mephisto_message_queue := []
    main_thread_timeout := none
    mephisto_socket := none
    agent_id_to_agent := []
    pending_provider_requests := [] }

/-! ## Errors and effects -/

/-- JS runtime exceptions the handlers can raise. -/
inductive JsError where
  | typeError (msg : String)
  | referenceError (msg : String)
deriving Repr, DecidableEq

/-- Observable side effects of a handler. -/
inductive Effect where
  | log (msg : String)
  | log_error (e : JsError)
  | launch_main_thread
  | respond_json (res : Nat) (p : Packet)
deriving Repr, DecidableEq

/-- Result of running one handler body: the state at normal return (or
at the point of the throw), the effects emitted before that point, and
the exception when one was raised. -/
structure HandlerResult where
  state : ServerState
  effects : List Effect
  error : Option JsError
deriving Repr, DecidableEq

/-! ## `_send_message` -/

/-- `_send_message(socket, packet)` observed at the level of which
sockets a first send attempt is initiated on: empty when the socket is
null or already closed (`readyState == 3`), else one attempt of this
packet on this socket. -/
def _send_message (socket : Option Socket) (packet : Packet) :
    List (Socket × Packet) :=
  match socket with
  | none => []
  | some s => if s.readyState = 3 then [] else [(s, packet)]

/-- Delivery statistics of one `_send_message` call. -/
structure SendOutcome where
  attempts : Nat
  delivered : Nat
  logged_error : Bool
  retry_delay_ms : Option Nat
deriving Repr, DecidableEq

/-- `_send_message` observed at the level of its retry behaviour.
`fail1` is whether the ack callback of the first `socket.send` reports
an error, `fail2` the same for the retry send scheduled 500 ms later
(`fail2` is only reached when `fail1` holds). -/
def send_message_outcome (socket : Option Socket) (fail1 fail2 : Bool) :
    SendOutcome :=
  match socket with
  | none => ⟨0, 0, false, none⟩
  | some s =>
    if s.readyState = 3 then ⟨0, 0, false, none⟩
    else if fail1 = false then ⟨1, 1, false, none⟩
    else if fail2 = false then ⟨2, 1, false, some 500⟩
    else ⟨2, 0, true, some 500⟩

/-! ## Packet handlers -/

/-- `handle_alive(socket, alive_packet)`.  The system branch installs
the socket as `mephisto_socket` and launches the main thread once.
The agent branch of the source reads
  `var agent = LocalAgentState(agent_id);`
which invokes an ES6 class constructor without `new`; this raises a
TypeError before any of the three map assignments on the following
lines executes, so the state is unchanged. -/
def handle_alive (socket : Socket) (alive_packet : Packet)
    (st : ServerState) : HandlerResult :=
  if alive_packet.sender_id = SYSTEM_SOCKET_ID then
    let st1 : ServerState := { st with mephisto_socket := some socket }
    if st1.main_thread_timeout = none then
      { state := { st1 with main_thread_timeout := some 50 }
        effects := [Effect.log ("launching main thread"),
                    Effect.launch_main_thread]
        error := none }
    else
      { state := st1, effects := [], error := none }
  else
    { state := st
      effects := []
      error := some (JsError.typeError
        ("Class constructor LocalAgentState cannot be invoked without new")) }

/-- `handle_get_agent_status(status_packet)`: builds the
`agent_id -> status` snapshot and pushes it onto
`mephisto_message_queue`.  The packet argument is unused, as in the
source. -/
def handle_get_agent_status (status_packet : Packet) (st : ServerState) :
    ServerState :=
  let agent_statuses :=
    st.agent_id_to_agent.map (fun q => (q.1, q.2.status))
  let packet : Packet :=
    { packet_type := PACKET_TYPE_RETURN_AGENT_STATUS
      sender_id := SERVER_SOCKET_ID
      receiver_id := SYSTEM_SOCKET_ID
      data := agent_statuses }
  { st with mephisto_message_queue := st.mephisto_message_queue ++ [packet] }

/-- `handle_forward(packet)`.  The source body reads
  `if (alive_packet.receiver_id == SYSTEM_SOCKET_ID)`
but the parameter of the function is named `packet` and no variable
`alive_packet` is in scope, so the very first statement raises a
ReferenceError on every call, before any queue is touched. -/
def handle_forward (packet : Packet) (st : ServerState) : HandlerResult :=
  { state := st
    effects := []
    error := some (JsError.referenceError ("alive_packet is not defined")) }

/-- The inline `provider_details` / `initial_data_send` branch of the
message handler: resolve the correlation key (`data.request_id`,
falling back to `receiver_id`), look the pending response up, call
`res_obj.json(packet)` and delete the entry.  When the key is absent
from the table, `res_obj` is `undefined` and the `.json` call raises a
TypeError; the `delete` line is not reached. -/
def handle_reply (packet : Packet) (st : ServerState) : HandlerResult :=
  let request_id := (jget packet.data ("request_id")).getD packet.receiver_id
  match lookupA st.pending_provider_requests request_id with
  | none =>
    { state := st
      effects := []
      error := some (JsError.typeError
        ("Cannot read properties of undefined reading json")) }
  | some res_obj =>
    { state := { st with
        pending_provider_requests :=
          eraseA st.pending_provider_requests request_id }
      effects := [Effect.respond_json res_obj packet]
      error := none }

/-- The dispatch chain of the `message` handler body (after
`JSON.parse`), in source order; unknown packet types fall through with
no effect. -/
def route (socket : Socket) (packet : Packet) (st : ServerState) :
    HandlerResult :=
  if packet.packet_type = PACKET_TYPE_REQUEST_AGENT_STATUS then
    { state := handle_get_agent_status packet st, effects := [], error := none }
  else if packet.packet_type = PACKET_TYPE_AGENT_ACTION then
    handle_forward packet st
  else if packet.packet_type = PACKET_TYPE_ALIVE then
    handle_alive socket packet st
  else if packet.packet_type = PACKET_TYPE_PROVIDER_DETAILS ∨
      packet.packet_type = PACKET_TYPE_INIT_DATA then
    handle_reply packet st
  else
    { state := st, effects := [], error := none }

/-- The full `message` handler: the `try`/`catch` wrapping `route`.
A raised exception is caught, logged, and the handler returns normally
with the state as it was at the throw point. -/
def on_message (socket : Socket) (packet : Packet) (st : ServerState) :
    ServerState × List Effect :=
  let hr := route socket packet st
  match hr.error with
  | none => (hr.state, hr.effects)
  | some e =>
    (hr.state,
     hr.effects ++ [Effect.log ("Transient error on message"),
                    Effect.log_error e])

/-! ## The dispatch loop (`main_thread`) -/

/-- The first half of `main_thread`: iterate the keys of
`agent_id_to_socket`; for each, take the whole `unsent_messages` of the
agent record (`get_sendable_messages` swaps in a fresh empty array) and
call `_send_message(socket, packet)` on each taken packet in order.
When an agent id has no record in `agent_id_to_agent`, the source
dereferences `undefined` and the tick crashes: modelled by `none`. -/
def drain_agents :
    List (String × Socket) → List (String × LocalAgentState) →
    Option (List (String × LocalAgentState) × List (Socket × Packet))
  | [], agents => some (agents, [])
  | (aid, sock) :: rest, agents =>
    match lookupA agents aid with
    | none => none
    | some a =>
      let sendable := a.unsent_messages
      let agents1 := setA agents aid { a with unsent_messages := [] }
      match drain_agents rest agents1 with
      | none => none
      | some (agents2, sends) =>
        some (agents2,
          (sendable.flatMap (fun p => _send_message (some sock) p)) ++ sends)

/-- One tick of `main_thread`: drain every agent queue, then shift the
whole `mephisto_message_queue` and send each packet to
`mephisto_socket`, then re-arm the timer. -/
def main_thread (st : ServerState) :
    Option (ServerState × List (Socket × Packet)) :=
  match drain_agents st.agent_id_to_socket st.agent_id_to_agent with
  | none => none
  | some (agents2, agent_sends) =>
    let system_sends :=
      st.mephisto_message_queue.flatMap
        (fun p => _send_message st.mephisto_socket p)
    some ({ st with
        agent_id_to_agent := agents2
        mephisto_message_queue := []
        main_thread_timeout := some 50 },
      agent_sends ++ system_sends)

/-! ## The HTTP bridge -/

/-- `make_provider_request(request_type, provider_data, res)`: build
the request packet, park `res` in `pending_provider_requests` under the
fresh `request_id` (passed as a parameter here because `uuidv4()` is
random), then call `_send_message(mephisto_socket, request_packet)`
directly.  Returns the new state and the send attempts of that call. -/
def make_provider_request (request_type provider_data : String)
    (res : Nat) (request_id : String) (st : ServerState) :
    ServerState × List (Socket × Packet) :=
  let request_packet : Packet :=
    { packet_type := request_type
      sender_id := SERVER_SOCKET_ID
      receiver_id := SYSTEM_SOCKET_ID
      data := [(("provider_data"), provider_data),
               (("request_id"), request_id)] }
  ({ st with
      pending_provider_requests :=
        setA st.pending_provider_requests request_id res },
   _send_message st.mephisto_socket request_packet)

/-- Sequential processing of a list of `alive` packets, each handled to
completion (the event loop runs socket messages one at a time). -/
def register_system_run :
    List (Socket × Packet) → ServerState → ServerState × List Effect
  | [], st => (st, [])
  | r :: rest, st =>
    let hr := handle_alive r.1 r.2 st
    let next := register_system_run rest hr.state
    (next.1, hr.effects ++ next.2)

/-! ## Lemmas about the association-list operations -/

theorem lookupA_setA_self {α : Type} (l : List (String × α)) (k : String)
    (v : α) : lookupA (setA l k v) k = some v := by
  induction l with
  | nil => simp [setA, lookupA]
  | cons hd t ih =>
    obtain ⟨k1, w⟩ := hd
    by_cases hk : k1 = k
    · simp [setA, hk, lookupA]
    · simp [setA, hk, lookupA, ih]

theorem lookupA_setA_ne {α : Type} (l : List (String × α)) (k1 k2 : String)
    (v : α) (h : k1 ≠ k2) : lookupA (setA l k1 v) k2 = lookupA l k2 := by
  induction l with
  | nil => simp [setA, lookupA, h]
  | cons hd t ih =>
    obtain ⟨k, w⟩ := hd
    by_cases hk : k = k1
    · subst hk
      simp [setA, lookupA, h]
    · simp [setA, hk, lookupA, ih]

theorem lookupA_setA_isSome {α : Type} (l : List (String × α))
    (k1 k2 : String) (v : α) (h : (lookupA l k2).isSome) :
    (lookupA (setA l k1 v) k2).isSome := by
  by_cases hk : k1 = k2
  · subst hk
    simp [lookupA_setA_self]
  · rwa [lookupA_setA_ne l k1 k2 v hk]

theorem lookupA_eq_none_of_not_mem {α : Type} (l : List (String × α))
    (k : String) (h : k ∉ l.map Prod.fst) : lookupA l k = none := by
  induction l with
  | nil => simp [lookupA]
  | cons hd t ih =>
    obtain ⟨k1, w⟩ := hd
    simp only [List.map_cons, List.mem_cons] at h
    push_neg at h
    simp [lookupA, Ne.symm h.1, ih h.2]

theorem lookupA_eraseA_self {α : Type} (l : List (String × α)) (k : String)
    (hnd : (l.map Prod.fst).Nodup) : lookupA (eraseA l k) k = none := by
  induction l with
  | nil => simp [eraseA, lookupA]
  | cons hd t ih =>
    obtain ⟨k1, w⟩ := hd
    simp only [List.map_cons, List.nodup_cons] at hnd
    by_cases hk : k1 = k
    · subst hk
      simp only [eraseA, if_pos rfl]
      exact lookupA_eq_none_of_not_mem t k1 hnd.1
    · simp [eraseA, hk, lookupA, ih hnd.2]

theorem lookupA_map_snd {α β : Type} (l : List (String × α)) (f : α → β)
    (k : String) :
    lookupA (l.map (fun q => (q.1, f q.2))) k = (lookupA l k).map f := by
  induction l with
  | nil => simp [lookupA]
  | cons hd t ih =>
    obtain ⟨k1, w⟩ := hd
    by_cases hk : k1 = k
    · simp [lookupA, hk]
    · simp [lookupA, hk, ih]

theorem map_fst_map_snd {α β : Type} (l : List (String × α)) (f : α → β) :
    (l.map (fun q => (q.1, f q.2))).map Prod.fst = l.map Prod.fst := by
  induction l with
  | nil => rfl
  | cons hd t ih => simp [ih]

/-! ## Lemmas about the dispatch loop -/

theorem flatMap_send_open (sock : Socket) (h : sock.readyState ≠ 3)
    (l : List Packet) :
    l.flatMap (fun p => _send_message (some sock) p) =
      l.map (fun p => (sock, p)) := by
  induction l with
  | nil => rfl
  | cons hd t ih =>
    simp only [List.flatMap_cons, List.map_cons]
    rw [ih]
    simp [_send_message, h]

theorem drain_agents_total (conns : List (String × Socket)) :
    ∀ agents : List (String × LocalAgentState),
    (∀ p ∈ conns, (lookupA agents p.1).isSome) →
    ∃ x, drain_agents conns agents = some x := by
  induction conns with
  | nil => intro agents _; exact ⟨_, rfl⟩
  | cons hd rest ih =>
    intro agents hall
    obtain ⟨aid, sock⟩ := hd
    have h1 : (lookupA agents aid).isSome := hall (aid, sock) (by simp)
    obtain ⟨a, ha⟩ := Option.isSome_iff_exists.mp h1
    have h2 : ∀ p ∈ rest,
        (lookupA (setA agents aid { a with unsent_messages := [] }) p.1).isSome := by
      intro p hp
      exact lookupA_setA_isSome _ _ _ _ (hall p (by simp [hp]))
    obtain ⟨⟨agents2, sends⟩, hx⟩ := ih _ h2
    refine ⟨(agents2,
      (a.unsent_messages.flatMap fun p => _send_message (some sock) p) ++ sends), ?_⟩
    simp [drain_agents, ha, hx]


theorem drain_agents_not_mem (conns : List (String × Socket)) :
    ∀ (agents agents2 : List (String × LocalAgentState))
      (sends : List (Socket × Packet)) (aid : String),
    aid ∉ conns.map Prod.fst →
    drain_agents conns agents = some (agents2, sends) →
    lookupA agents2 aid = lookupA agents aid := by
  induction conns with
  | nil =>
    intro agents agents2 sends aid _ hdr
    simp only [drain_agents, Option.some.injEq, Prod.mk.injEq] at hdr
    rw [← hdr.1]
  | cons c rest ih =>
    intro agents agents2 sends aid hmem hdr
    obtain ⟨k, s⟩ := c
    simp only [List.map_cons, List.mem_cons] at hmem
    push_neg at hmem
    simp only [drain_agents] at hdr
    cases hb : lookupA agents k with
    | none => rw [hb] at hdr; exact absurd hdr (by simp)
    | some b =>
      rw [hb] at hdr
      simp only at hdr
      cases hrest : drain_agents rest
          (setA agents k { b with unsent_messages := [] }) with
      | none => rw [hrest] at hdr; exact absurd hdr (by simp)
      | some x =>
        obtain ⟨agents1, sends1⟩ := x
        rw [hrest] at hdr
        simp only [Option.some.injEq, Prod.mk.injEq] at hdr
        have heq := ih _ _ _ aid hmem.2 hrest
        rw [← hdr.1, heq]
        exact lookupA_setA_ne _ _ _ _ (Ne.symm hmem.1)

theorem drain_agents_spec (conns : List (String × Socket)) :
    ∀ (agents : List (String × LocalAgentState)) (aid : String)
      (sock : Socket) (a : LocalAgentState),
    (conns.map Prod.fst).Nodup →
    (∀ p ∈ conns, (lookupA agents p.1).isSome) →
    lookupA conns aid = some sock →
    lookupA agents aid = some a →
    sock.readyState ≠ 3 →
    ∃ agents2 pre post,
      drain_agents conns agents =
        some (agents2,
          pre ++ a.unsent_messages.map (fun p => (sock, p)) ++ post) ∧
      lookupA agents2 aid = some { a with unsent_messages := [] } := by
  induction conns with
  | nil =>
    intro agents aid sock a _ _ hconn _ _
    simp [lookupA] at hconn
  | cons c rest ih =>
    intro agents aid sock a hnd hall hconn hagent hopen
    obtain ⟨k, s⟩ := c
    simp only [List.map_cons, List.nodup_cons] at hnd
    have hksome : (lookupA agents k).isSome := hall (k, s) (by simp)
    obtain ⟨b, hb⟩ := Option.isSome_iff_exists.mp hksome
    have hall1 : ∀ p ∈ rest,
        (lookupA (setA agents k { b with unsent_messages := [] }) p.1).isSome :=
      fun p hp => lookupA_setA_isSome _ _ _ _ (hall p (by simp [hp]))
    by_cases hk : k = aid
    · subst hk
      have hs : s = sock := by
        simp [lookupA] at hconn
        exact hconn
      subst hs
      have hba : b = a := by
        rw [hb] at hagent
        exact Option.some.inj hagent
      subst hba
      obtain ⟨⟨agents1, sends1⟩, hrest⟩ := drain_agents_total rest _ hall1
      refine ⟨agents1, [], sends1, ?_, ?_⟩
      · simp [drain_agents, hb, hrest, flatMap_send_open s hopen]
      · rw [drain_agents_not_mem rest _ _ _ k hnd.1 hrest]
        exact lookupA_setA_self _ _ _
    · have hconn1 : lookupA rest aid = some sock := by
        simpa [lookupA, hk] using hconn
      have hagent1 :
          lookupA (setA agents k { b with unsent_messages := [] }) aid = some a := by
        rw [lookupA_setA_ne _ _ _ _ hk]
        exact hagent
      obtain ⟨agents2, pre, post, hdr, hlook⟩ :=
        ih _ aid sock a hnd.2 hall1 hconn1 hagent1 hopen
      refine ⟨agents2,
        (b.unsent_messages.flatMap fun p => _send_message (some s) p) ++ pre,
        post, ?_, hlook⟩
      simp [drain_agents, hb, hdr]

/-! ## Lemmas about system registration -/

theorem handle_alive_system (socket : Socket) (p : Packet)
    (st : ServerState) (h : p.sender_id = SYSTEM_SOCKET_ID) :
    handle_alive socket p st =
      { state := { st with
          mephisto_socket := some socket
          main_thread_timeout :=
            if st.main_thread_timeout = none then some 50
            else st.main_thread_timeout }
        effects :=
          if st.main_thread_timeout = none then
            [Effect.log ("launching main thread"), Effect.launch_main_thread]
          else []
        error := none } := by
  by_cases ht : st.main_thread_timeout = none <;>
    simp [handle_alive, h, ht]

theorem register_system_run_state_cons (r : Socket × Packet)
    (rest : List (Socket × Packet)) (st : ServerState) :
    (register_system_run (r :: rest) st).1 =
      (register_system_run rest (handle_alive r.1 r.2 st).state).1 := rfl

theorem register_system_run_effects_cons (r : Socket × Packet)
    (rest : List (Socket × Packet)) (st : ServerState) :
    (register_system_run (r :: rest) st).2 =
      (handle_alive r.1 r.2 st).effects ++
        (register_system_run rest (handle_alive r.1 r.2 st).state).2 := rfl

theorem register_system_run_socket (regs : List (Socket × Packet)) :
    ∀ st : ServerState,
    (∀ r ∈ regs, r.2.sender_id = SYSTEM_SOCKET_ID) →
    (register_system_run regs st).1.mephisto_socket =
      (regs.getLast?.map (fun r => some r.1)).getD st.mephisto_socket := by
  induction regs with
  | nil => intro st _; rfl
  | cons r rest ih =>
    intro st hsys
    have hr : r.2.sender_id = SYSTEM_SOCKET_ID := hsys r (by simp)
    have hrest : ∀ q ∈ rest, q.2.sender_id = SYSTEM_SOCKET_ID :=
      fun q hq => hsys q (by simp [hq])
    rw [register_system_run_state_cons, ih _ hrest]
    have hsock : (handle_alive r.1 r.2 st).state.mephisto_socket = some r.1 := by
      rw [handle_alive_system r.1 r.2 st hr]
    cases rest with
    | nil => simp [hsock]
    | cons r2 rest2 =>
      rw [List.getLast?_cons_cons]
      cases hy : (r2 :: rest2).getLast? with
      | none => simp [List.getLast?_eq_none_iff] at hy
      | some y => simp [hy]

theorem register_system_run_effects (regs : List (Socket × Packet)) :
    ∀ st : ServerState,
    (∀ r ∈ regs, r.2.sender_id = SYSTEM_SOCKET_ID) →
    (register_system_run regs st).2 =
      (if st.main_thread_timeout = none ∧ regs ≠ [] then
        [Effect.log ("launching main thread"), Effect.launch_main_thread]
      else []) ∧
    ((register_system_run regs st).1.main_thread_timeout = none ↔
      (st.main_thread_timeout = none ∧ regs = [])) := by
  induction regs with
  | nil => intro st _; simp [register_system_run]
  | cons r rest ih =>
    intro st hsys
    have hr : r.2.sender_id = SYSTEM_SOCKET_ID := hsys r (by simp)
    have hrest : ∀ q ∈ rest, q.2.sender_id = SYSTEM_SOCKET_ID :=
      fun q hq => hsys q (by simp [hq])
    by_cases ht : st.main_thread_timeout = none
    · have hstate : (handle_alive r.1 r.2 st).state =
          { st with mephisto_socket := some r.1, main_thread_timeout := some 50 } := by
        rw [handle_alive_system r.1 r.2 st hr]
        simp [ht]
      have heff : (handle_alive r.1 r.2 st).effects =
          [Effect.log ("launching main thread"), Effect.launch_main_thread] := by
        rw [handle_alive_system r.1 r.2 st hr]
        simp [ht]
      have hst1 := ih { st with
        mephisto_socket := some r.1, main_thread_timeout := some 50 } hrest
      constructor
      · rw [register_system_run_effects_cons, hstate, heff, hst1.1]
        simp [ht]
      · rw [register_system_run_state_cons, hstate, hst1.2]
        simp
    · have hstate : (handle_alive r.1 r.2 st).state =
          { st with mephisto_socket := some r.1,
                    main_thread_timeout := st.main_thread_timeout } := by
        rw [handle_alive_system r.1 r.2 st hr]
        simp [ht]
      have heff : (handle_alive r.1 r.2 st).effects = [] := by
        rw [handle_alive_system r.1 r.2 st hr]
        simp [ht]
      have hst1 := ih { st with
        mephisto_socket := some r.1,
        main_thread_timeout := st.main_thread_timeout } hrest
      constructor
      · rw [register_system_run_effects_cons, hstate, heff, hst1.1]
        simp [ht]
      · rw [register_system_run_state_cons, hstate, hst1.2]
        simp [ht]

/-! ## Routing helper lemmas -/

theorem route_reply (sock : Socket) (p : Packet) (st : ServerState)
    (hty : p.packet_type = PACKET_TYPE_PROVIDER_DETAILS ∨
      p.packet_type = PACKET_TYPE_INIT_DATA) :
    route sock p st = handle_reply p st := by
  rcases hty with h | h <;>
    simp [route, h, PACKET_TYPE_PROVIDER_DETAILS, PACKET_TYPE_INIT_DATA,
      PACKET_TYPE_REQUEST_AGENT_STATUS, PACKET_TYPE_AGENT_ACTION,
      PACKET_TYPE_ALIVE]

theorem main_thread_pending (st : ServerState)
    (out : ServerState × List (Socket × Packet))
    (h : main_thread st = some out) :
    out.1.pending_provider_requests = st.pending_provider_requests := by
  unfold main_thread at h
  cases hd : drain_agents st.agent_id_to_socket st.agent_id_to_agent with
  | none => rw [hd] at h; exact absurd h (by simp)
  | some x =>
    obtain ⟨agents2, agent_sends⟩ := x
    rw [hd] at h
    simp only [Option.some.injEq] at h
    rw [← h]

/-! ## Claim theorems -/

/-- Claim C1 (code bug): the spec says an `agent_action` packet whose
`receiver_id` is the system identity is enqueued onto the system
outbound queue.  The source of `handle_forward` instead reads
`alive_packet.receiver_id` where no variable `alive_packet` exists, so
routing any `agent_action` packet raises a ReferenceError which the
message handler catches and logs; the packet is discarded, nothing is
enqueued onto `mephisto_message_queue` or any agent queue. -/
theorem c1_agent_action_reference_error :
    route ⟨("s1"), 1⟩
      { packet_type := PACKET_TYPE_AGENT_ACTION
        sender_id := ("agent_A")
        receiver_id := SYSTEM_SOCKET_ID
        data := [] } empty_state =
      { state := empty_state
        effects := []
        error := some (JsError.referenceError ("alive_packet is not defined")) } ∧
    (on_message ⟨("s1"), 1⟩
      { packet_type := PACKET_TYPE_AGENT_ACTION
        sender_id := ("agent_A")
        receiver_id := SYSTEM_SOCKET_ID
        data := [] } empty_state).1.mephisto_message_queue = [] ∧
    (on_message ⟨("s1"), 1⟩
      { packet_type := PACKET_TYPE_AGENT_ACTION
        sender_id := ("agent_A")
        receiver_id := SYSTEM_SOCKET_ID
        data := [] } empty_state).2 =
      [Effect.log ("Transient error on message"),
       Effect.log_error (JsError.referenceError ("alive_packet is not defined"))] := by
  refine ⟨rfl, rfl, rfl⟩

/-- Claim C2 (code bug): the spec says an `alive` packet from a
non-system sender creates an AgentRecord with status INIT and binds the
socket and agent id in both registry maps.  The source calls
`LocalAgentState(agent_id)` without `new`, which raises a TypeError
before any of the three map assignments runs; the message handler
catches it, so after the packet the whole state is unchanged and the
agent id is absent from the known-agents map. -/
theorem c2_register_agent_type_error :
    (on_message ⟨("s1"), 1⟩
      { packet_type := PACKET_TYPE_ALIVE
        sender_id := ("agent_A")
        receiver_id := ("any")
        data := [] } empty_state).1 = empty_state ∧
    lookupA (on_message ⟨("s1"), 1⟩
      { packet_type := PACKET_TYPE_ALIVE
        sender_id := ("agent_A")
        receiver_id := ("any")
        data := [] } empty_state).1.agent_id_to_agent ("agent_A") = none ∧
    (on_message ⟨("s1"), 1⟩
      { packet_type := PACKET_TYPE_ALIVE
        sender_id := ("agent_A")
        receiver_id := ("any")
        data := [] } empty_state).2 =
      [Effect.log ("Transient error on message"),
       Effect.log_error (JsError.typeError
         ("Class constructor LocalAgentState cannot be invoked without new"))] := by
  refine ⟨rfl, rfl, rfl⟩

/-- Claim C3 counterexample: at a state whose system socket is
installed and open, a provider request leaves `mephisto_message_queue`
untouched and instead initiates a direct `_send_message` call at call
time, so the claim that the packet is enqueued onto the system outbound
queue and delivered only by the dispatch loop is false. -/
theorem c3_counterexample_direct_send :
    (make_provider_request PACKET_TYPE_NEW_AGENT ("pd") 7 ("rid-1")
      { empty_state with
          mephisto_socket := some ⟨("sys"), 1⟩ }).1.mephisto_message_queue = [] ∧
    (make_provider_request PACKET_TYPE_NEW_AGENT ("pd") 7 ("rid-1")
      { empty_state with mephisto_socket := some ⟨("sys"), 1⟩ }).2 =
      [(⟨("sys"), 1⟩,
        { packet_type := PACKET_TYPE_NEW_AGENT
          sender_id := SERVER_SOCKET_ID
          receiver_id := SYSTEM_SOCKET_ID
          data := [(("provider_data"), ("pd")),
                   (("request_id"), ("rid-1"))] })] := by
  refine ⟨rfl, rfl⟩

/-- Claim C3 amended: for every provider-request endpoint call, the
HTTP bridge parks the response handle under the fresh request id and
then sends the constructed request packet directly to the system socket
via `_send_message` at call time; the packet is never put on
`mephisto_message_queue`, so the dispatch loop is not involved. -/
theorem c3_amended_direct_send (rt pd : String) (res : Nat) (rid : String)
    (st : ServerState) :
    (make_provider_request rt pd res rid st).1.mephisto_message_queue =
      st.mephisto_message_queue ∧
    lookupA (make_provider_request rt pd res rid st).1.pending_provider_requests
      rid = some res ∧
    (make_provider_request rt pd res rid st).2 =
      _send_message st.mephisto_socket
        { packet_type := rt
          sender_id := SERVER_SOCKET_ID
          receiver_id := SYSTEM_SOCKET_ID
          data := [(("provider_data"), pd), (("request_id"), rid)] } := by
  refine ⟨rfl, ?_, rfl⟩
  exact lookupA_setA_self _ _ _

/-- Claim C9: `_send_message` is a no-op on a null or closed socket; on
a first failed send it waits 500 ms and attempts exactly one more send;
on a second failure it logs and drops.  Hence one transient failure
followed by success gives two attempts and one delivery, and two
consecutive failures give zero deliveries with a logged error. -/
theorem c9_send_message_retry (i : String) (r : Nat) (f1 f2 : Bool)
    (hr : r ≠ 3) :
    send_message_outcome none f1 f2 = ⟨0, 0, false, none⟩ ∧
    send_message_outcome (some ⟨i, 3⟩) f1 f2 = ⟨0, 0, false, none⟩ ∧
    send_message_outcome (some ⟨i, r⟩) false f2 = ⟨1, 1, false, none⟩ ∧
    send_message_outcome (some ⟨i, r⟩) true false = ⟨2, 1, false, some 500⟩ ∧
    send_message_outcome (some ⟨i, r⟩) true true = ⟨2, 0, true, some 500⟩ := by
  refine ⟨rfl, by simp [send_message_outcome], ?_, ?_, ?_⟩ <;>
    simp [send_message_outcome, hr]

/-- Claim C9 witness: the retry behaviour evaluated on a concrete open
socket. -/
theorem c9_send_message_retry_witness :
    send_message_outcome none false false = ⟨0, 0, false, none⟩ ∧
    send_message_outcome (some ⟨("s"), 3⟩) false false = ⟨0, 0, false, none⟩ ∧
    send_message_outcome (some ⟨("s"), 1⟩) false false = ⟨1, 1, false, none⟩ ∧
    send_message_outcome (some ⟨("s"), 1⟩) true false = ⟨2, 1, false, some 500⟩ ∧
    send_message_outcome (some ⟨("s"), 1⟩) true true = ⟨2, 0, true, some 500⟩ :=
  c9_send_message_retry ("s") 1 false false (by decide)

/-- Claim C10: calling a provider-request endpoint while no system
connection has ever registered (null `mephisto_socket`) silently
discards the request packet in the null-socket guard of
`_send_message`, yet the pending response entry for the request id is
stored and stays stored across a dispatch tick, so the call produces no
send and no HTTP response. -/
theorem c10_null_socket_discard (rt pd : String) (res : Nat) (rid : String)
    (st : ServerState) (h : st.mephisto_socket = none) :
    (make_provider_request rt pd res rid st).2 = [] ∧
    lookupA (make_provider_request rt pd res rid st).1.pending_provider_requests
      rid = some res ∧
    (make_provider_request rt pd res rid st).1.mephisto_message_queue =
      st.mephisto_message_queue ∧
    (∀ out, main_thread (make_provider_request rt pd res rid st).1 = some out →
      lookupA out.1.pending_provider_requests rid = some res) := by
  refine ⟨?_, lookupA_setA_self _ _ _, rfl, ?_⟩
  · simp [make_provider_request, h, _send_message]
  · intro out hout
    rw [main_thread_pending _ _ hout]
    exact lookupA_setA_self _ _ _

/-- Claim C10 witness: a provider request issued on the initial state,
whose system socket reference is still null. -/
theorem c10_null_socket_discard_witness :
    (make_provider_request PACKET_TYPE_NEW_WORKER ("pd") 3 ("rid-9")
      empty_state).2 = [] ∧
    lookupA (make_provider_request PACKET_TYPE_NEW_WORKER ("pd") 3 ("rid-9")
      empty_state).1.pending_provider_requests ("rid-9") = some 3 ∧
    (make_provider_request PACKET_TYPE_NEW_WORKER ("pd") 3 ("rid-9")
      empty_state).1.mephisto_message_queue = [] ∧
    (∀ out, main_thread (make_provider_request PACKET_TYPE_NEW_WORKER ("pd") 3
        ("rid-9") empty_state).1 = some out →
      lookupA out.1.pending_provider_requests ("rid-9") = some 3) :=
  c10_null_socket_discard PACKET_TYPE_NEW_WORKER ("pd") 3 ("rid-9")
    empty_state (by decide)

/-- Claim C5: when a `provider_details` or `initial_data_send` packet
arrives whose correlation key (`data.request_id`, falling back to
`receiver_id`) matches no pending entry, the lookup result is used
unguarded: the handler raises a TypeError at the resolution site
(dereferencing the missing entry) instead of logging and discarding,
and the state is unchanged. -/
theorem c5_unknown_key_null_access (sock : Socket) (p : Packet)
    (st : ServerState)
    (hty : p.packet_type = PACKET_TYPE_PROVIDER_DETAILS ∨
      p.packet_type = PACKET_TYPE_INIT_DATA)
    (hkey : lookupA st.pending_provider_requests
      ((jget p.data ("request_id")).getD p.receiver_id) = none) :
    route sock p st =
      { state := st
        effects := []
        error := some (JsError.typeError
          ("Cannot read properties of undefined reading json")) } ∧
    (on_message sock p st).1 = st ∧
    (on_message sock p st).2 =
      [Effect.log ("Transient error on message"),
       Effect.log_error (JsError.typeError
         ("Cannot read properties of undefined reading json"))] := by
  have hroute : route sock p st = handle_reply p st := route_reply sock p st hty
  have hrep : handle_reply p st =
      { state := st
        effects := []
        error := some (JsError.typeError
          ("Cannot read properties of undefined reading json")) } := by
    simp only [handle_reply, hkey]
  refine ⟨hroute.trans hrep, ?_, ?_⟩ <;> simp [on_message, hroute, hrep]

/-- Claim C5 witness: a `provider_details` reply with an unknown
request id on the initial state. -/
theorem c5_unknown_key_null_access_witness :
    route ⟨("s1"), 1⟩
      { packet_type := PACKET_TYPE_PROVIDER_DETAILS
        sender_id := SYSTEM_SOCKET_ID
        receiver_id := ("agent_A")
        data := [(("request_id"), ("rid-unknown"))] } empty_state =
      { state := empty_state
        effects := []
        error := some (JsError.typeError
          ("Cannot read properties of undefined reading json")) } ∧
    (on_message ⟨("s1"), 1⟩
      { packet_type := PACKET_TYPE_PROVIDER_DETAILS
        sender_id := SYSTEM_SOCKET_ID
        receiver_id := ("agent_A")
        data := [(("request_id"), ("rid-unknown"))] } empty_state).1 =
      empty_state ∧
    (on_message ⟨("s1"), 1⟩
      { packet_type := PACKET_TYPE_PROVIDER_DETAILS
        sender_id := SYSTEM_SOCKET_ID
        receiver_id := ("agent_A")
        data := [(("request_id"), ("rid-unknown"))] } empty_state).2 =
      [Effect.log ("Transient error on message"),
       Effect.log_error (JsError.typeError
         ("Cannot read properties of undefined reading json"))] :=
  c5_unknown_key_null_access ⟨("s1"), 1⟩
    { packet_type := PACKET_TYPE_PROVIDER_DETAILS
      sender_id := SYSTEM_SOCKET_ID
      receiver_id := ("agent_A")
      data := [(("request_id"), ("rid-unknown"))] } empty_state
    (Or.inl rfl) (by decide)

theorem on_message_eq (sock : Socket) (p : Packet) (st : ServerState) :
    on_message sock p st =
      match (route sock p st).error with
      | none => ((route sock p st).state, (route sock p st).effects)
      | some e =>
        ((route sock p st).state,
         (route sock p st).effects ++
           [Effect.log ("Transient error on message"), Effect.log_error e]) :=
  rfl

/-- Claim C6: at most one HTTP response is written per request id: the
first matching reply emits exactly one `respond_json` for the parked
handle and removes the pending entry; injecting a second reply with
the same correlation key returns normally from the connection handler
(the raised TypeError is caught and logged), alters no state, and
writes no further response. -/
theorem c6_single_response (sock : Socket) (p : Packet) (st : ServerState)
    (res : Nat)
    (hty : p.packet_type = PACKET_TYPE_PROVIDER_DETAILS ∨
      p.packet_type = PACKET_TYPE_INIT_DATA)
    (hnd : (st.pending_provider_requests.map Prod.fst).Nodup)
    (hkey : lookupA st.pending_provider_requests
      ((jget p.data ("request_id")).getD p.receiver_id) = some res) :
    (on_message sock p st).2 = [Effect.respond_json res p] ∧
    lookupA (on_message sock p st).1.pending_provider_requests
      ((jget p.data ("request_id")).getD p.receiver_id) = none ∧
    (on_message sock p (on_message sock p st).1).1 = (on_message sock p st).1 ∧
    (on_message sock p (on_message sock p st).1).2 =
      [Effect.log ("Transient error on message"),
       Effect.log_error (JsError.typeError
         ("Cannot read properties of undefined reading json"))] := by
  have hroute1 : route sock p st = handle_reply p st := route_reply sock p st hty
  have hrep1 : handle_reply p st =
      { state := { st with
          pending_provider_requests :=
            eraseA st.pending_provider_requests
              ((jget p.data ("request_id")).getD p.receiver_id) }
        effects := [Effect.respond_json res p]
        error := none } := by
    simp only [handle_reply, hkey]
  have h1 : on_message sock p st =
      ({ st with
          pending_provider_requests :=
            eraseA st.pending_provider_requests
              ((jget p.data ("request_id")).getD p.receiver_id) },
       [Effect.respond_json res p]) := by
    simp [on_message, hroute1, hrep1]
  have hnone : lookupA (eraseA st.pending_provider_requests
      ((jget p.data ("request_id")).getD p.receiver_id))
      ((jget p.data ("request_id")).getD p.receiver_id) = none :=
    lookupA_eraseA_self _ _ hnd
  have hroute2 : route sock p (on_message sock p st).1 =
      handle_reply p (on_message sock p st).1 :=
    route_reply sock p _ hty
  have hrep2 : handle_reply p (on_message sock p st).1 =
      { state := (on_message sock p st).1
        effects := []
        error := some (JsError.typeError
          ("Cannot read properties of undefined reading json")) } := by
    rw [h1]
    simp only [handle_reply, hnone]
  refine ⟨by rw [h1], ?_, ?_, ?_⟩
  · rw [h1]
    exact hnone
  · rw [on_message_eq sock p (on_message sock p st).1, hroute2, hrep2]
  · rw [on_message_eq sock p (on_message sock p st).1, hroute2, hrep2]
    simp

/-- Claim C6 witness: a request parked under rid-1, resolved once by a
matching `provider_details` reply, then the same reply injected a
second time. -/
theorem c6_single_response_witness :
    (on_message ⟨("s1"), 1⟩
      { packet_type := PACKET_TYPE_PROVIDER_DETAILS
        sender_id := SYSTEM_SOCKET_ID
        receiver_id := ("agent_A")
        data := [(("request_id"), ("rid-1"))] }
      { empty_state with
          pending_provider_requests := [(("rid-1"), 7)] }).2 =
      [Effect.respond_json 7
        { packet_type := PACKET_TYPE_PROVIDER_DETAILS
          sender_id := SYSTEM_SOCKET_ID
          receiver_id := ("agent_A")
          data := [(("request_id"), ("rid-1"))] }] ∧
    lookupA (on_message ⟨("s1"), 1⟩
      { packet_type := PACKET_TYPE_PROVIDER_DETAILS
        sender_id := SYSTEM_SOCKET_ID
        receiver_id := ("agent_A")
        data := [(("request_id"), ("rid-1"))] }
      { empty_state with
          pending_provider_requests := [(("rid-1"), 7)] }).1.pending_provider_requests
      ("rid-1") = none ∧
    (on_message ⟨("s1"), 1⟩
      { packet_type := PACKET_TYPE_PROVIDER_DETAILS
        sender_id := SYSTEM_SOCKET_ID
        receiver_id := ("agent_A")
        data := [(("request_id"), ("rid-1"))] }
      (on_message ⟨("s1"), 1⟩
        { packet_type := PACKET_TYPE_PROVIDER_DETAILS
          sender_id := SYSTEM_SOCKET_ID
          receiver_id := ("agent_A")
          data := [(("request_id"), ("rid-1"))] }
        { empty_state with
            pending_provider_requests := [(("rid-1"), 7)] }).1).1 =
      (on_message ⟨("s1"), 1⟩
        { packet_type := PACKET_TYPE_PROVIDER_DETAILS
          sender_id := SYSTEM_SOCKET_ID
          receiver_id := ("agent_A")
          data := [(("request_id"), ("rid-1"))] }
        { empty_state with
            pending_provider_requests := [(("rid-1"), 7)] }).1 ∧
    (on_message ⟨("s1"), 1⟩
      { packet_type := PACKET_TYPE_PROVIDER_DETAILS
        sender_id := SYSTEM_SOCKET_ID
        receiver_id := ("agent_A")
        data := [(("request_id"), ("rid-1"))] }
      (on_message ⟨("s1"), 1⟩
        { packet_type := PACKET_TYPE_PROVIDER_DETAILS
          sender_id := SYSTEM_SOCKET_ID
          receiver_id := ("agent_A")
          data := [(("request_id"), ("rid-1"))] }
        { empty_state with
            pending_provider_requests := [(("rid-1"), 7)] }).1).2 =
      [Effect.log ("Transient error on message"),
       Effect.log_error (JsError.typeError
         ("Cannot read properties of undefined reading json"))] :=
  c6_single_response ⟨("s1"), 1⟩
    { packet_type := PACKET_TYPE_PROVIDER_DETAILS
      sender_id := SYSTEM_SOCKET_ID
      receiver_id := ("agent_A")
      data := [(("request_id"), ("rid-1"))] }
    { empty_state with pending_provider_requests := [(("rid-1"), 7)] } 7
    (Or.inl rfl) (by decide) (by decide)

/-- Claim C7: registering the system connection is idempotent: after
any nonempty sequence of `alive` packets from the system identity,
`mephisto_socket` is exactly the socket of the latest registration (so
system-directed packets go to the latest socket), and the dispatch
loop was launched at most once across all registrations; afterwards
the dispatch-loop timer is always armed. -/
theorem c7_register_system_idempotent (regs : List (Socket × Packet))
    (st : ServerState)
    (hsys : ∀ r ∈ regs, r.2.sender_id = SYSTEM_SOCKET_ID)
    (hne : regs ≠ []) :
    (register_system_run regs st).1.mephisto_socket =
      some (regs.getLast hne).1 ∧
    (register_system_run regs st).2.count Effect.launch_main_thread ≤ 1 ∧
    (register_system_run regs st).1.main_thread_timeout ≠ none := by
  have hsock := register_system_run_socket regs st hsys
  have heff := register_system_run_effects regs st hsys
  refine ⟨?_, ?_, ?_⟩
  · rw [hsock, List.getLast?_eq_getLast_of_ne_nil hne]
    rfl
  · rw [heff.1]
    by_cases h : st.main_thread_timeout = none ∧ regs ≠ []
    · rw [if_pos h]
      decide
    · rw [if_neg h]
      decide
  · intro hcontra
    rw [heff.2] at hcontra
    exact hne hcontra.2

/-- Claim C7 witness: two successive system registrations on different
sockets starting from the initial state. -/
theorem c7_register_system_idempotent_witness :
    (register_system_run
      [(⟨("s1"), 1⟩, ⟨PACKET_TYPE_ALIVE, SYSTEM_SOCKET_ID, (""), []⟩),
       (⟨("s2"), 1⟩, ⟨PACKET_TYPE_ALIVE, SYSTEM_SOCKET_ID, (""), []⟩)]
      empty_state).1.mephisto_socket = some ⟨("s2"), 1⟩ ∧
    (register_system_run
      [(⟨("s1"), 1⟩, ⟨PACKET_TYPE_ALIVE, SYSTEM_SOCKET_ID, (""), []⟩),
       (⟨("s2"), 1⟩, ⟨PACKET_TYPE_ALIVE, SYSTEM_SOCKET_ID, (""), []⟩)]
      empty_state).2.count Effect.launch_main_thread ≤ 1 ∧
    (register_system_run
      [(⟨("s1"), 1⟩, ⟨PACKET_TYPE_ALIVE, SYSTEM_SOCKET_ID, (""), []⟩),
       (⟨("s2"), 1⟩, ⟨PACKET_TYPE_ALIVE, SYSTEM_SOCKET_ID, (""), []⟩)]
      empty_state).1.main_thread_timeout ≠ none :=
  c7_register_system_idempotent
    [(⟨("s1"), 1⟩, ⟨PACKET_TYPE_ALIVE, SYSTEM_SOCKET_ID, (""), []⟩),
     (⟨("s2"), 1⟩, ⟨PACKET_TYPE_ALIVE, SYSTEM_SOCKET_ID, (""), []⟩)]
    empty_state (by decide) (by decide)

/-- Claim C8: every `request_status` packet produces exactly one
`return_status` snapshot appended to the system outbound queue, with
`sender_id` the server identity, `receiver_id` the system identity,
and whose data keys are exactly the currently known agent ids, each
mapped to that agent's current status. -/
theorem c8_status_snapshot (sock : Socket) (p : Packet) (st : ServerState)
    (hty : p.packet_type = PACKET_TYPE_REQUEST_AGENT_STATUS) :
    ∃ snap : Packet,
      route sock p st =
        { state := { st with
            mephisto_message_queue := st.mephisto_message_queue ++ [snap] }
          effects := []
          error := none } ∧
      snap.packet_type = PACKET_TYPE_RETURN_AGENT_STATUS ∧
      snap.sender_id = SERVER_SOCKET_ID ∧
      snap.receiver_id = SYSTEM_SOCKET_ID ∧
      snap.data.map Prod.fst = st.agent_id_to_agent.map Prod.fst ∧
      (∀ aid a, lookupA st.agent_id_to_agent aid = some a →
        lookupA snap.data aid = some a.status) := by
  refine ⟨{ packet_type := PACKET_TYPE_RETURN_AGENT_STATUS
            sender_id := SERVER_SOCKET_ID
            receiver_id := SYSTEM_SOCKET_ID
            data := st.agent_id_to_agent.map (fun q => (q.1, q.2.status)) },
    ?_, rfl, rfl, rfl, map_fst_map_snd _ _, ?_⟩
  · simp [route, hty, handle_get_agent_status]
  · intro aid a ha
    rw [lookupA_map_snd]
    simp [ha]

/-- Claim C8 witness: a status request against a state with one known
agent. -/
theorem c8_status_snapshot_witness :
    ∃ snap : Packet,
      route ⟨("sys"), 1⟩
        { packet_type := PACKET_TYPE_REQUEST_AGENT_STATUS
          sender_id := SYSTEM_SOCKET_ID
          receiver_id := SERVER_SOCKET_ID
          data := [] }
        { empty_state with
            agent_id_to_agent :=
              [(("a1"), ⟨STATUS_INIT, ("a1"), []⟩)] } =
        { state := { empty_state with
            agent_id_to_agent := [(("a1"), ⟨STATUS_INIT, ("a1"), []⟩)]
            mephisto_message_queue := [snap] }
          effects := []
          error := none } ∧
      snap.packet_type = PACKET_TYPE_RETURN_AGENT_STATUS ∧
      snap.sender_id = SERVER_SOCKET_ID ∧
      snap.receiver_id = SYSTEM_SOCKET_ID ∧
      snap.data.map Prod.fst =
        ({ empty_state with
            agent_id_to_agent :=
              [(("a1"), ⟨STATUS_INIT, ("a1"), []⟩)] } :
          ServerState).agent_id_to_agent.map Prod.fst ∧
      (∀ aid a, lookupA [(("a1"), (⟨STATUS_INIT, ("a1"), []⟩ :
          LocalAgentState))] aid = some a →
        lookupA snap.data aid = some a.status) :=
  c8_status_snapshot ⟨("sys"), 1⟩
    { packet_type := PACKET_TYPE_REQUEST_AGENT_STATUS
      sender_id := SYSTEM_SOCKET_ID
      receiver_id := SERVER_SOCKET_ID
      data := [] }
    { empty_state with
        agent_id_to_agent := [(("a1"), ⟨STATUS_INIT, ("a1"), []⟩)] }
    rfl

/-- Claim C4: for any packets sitting in one agent's outbound queue
when a dispatch tick runs (i.e. all packets enqueued since the previous
tick), the tick sends to that agent's socket exactly those packets, in
original insertion order, as one contiguous batch, and the agent's
queue is left completely empty so later pushes start a new batch. -/
theorem c4_agent_queue_batch (st : ServerState) (aid : String)
    (sock : Socket) (a : LocalAgentState)
    (hnd : (st.agent_id_to_socket.map Prod.fst).Nodup)
    (hall : ∀ p ∈ st.agent_id_to_socket,
      (lookupA st.agent_id_to_agent p.1).isSome)
    (hconn : lookupA st.agent_id_to_socket aid = some sock)
    (hagent : lookupA st.agent_id_to_agent aid = some a)
    (hopen : sock.readyState ≠ 3) :
    ∃ st2 pre post,
      main_thread st =
        some (st2, pre ++ a.unsent_messages.map (fun p => (sock, p)) ++ post) ∧
      lookupA st2.agent_id_to_agent aid =
        some { a with unsent_messages := [] } := by
  obtain ⟨agents2, pre, post, hdr, hlook⟩ :=
    drain_agents_spec st.agent_id_to_socket st.agent_id_to_agent aid sock a
      hnd hall hconn hagent hopen
  refine ⟨{ st with
      agent_id_to_agent := agents2
      mephisto_message_queue := []
      main_thread_timeout := some 50 },
    pre,
    post ++ st.mephisto_message_queue.flatMap
      (fun p => _send_message st.mephisto_socket p),
    ?_, hlook⟩
  simp [main_thread, hdr]

/-- Claim C4 witness: one registered agent with two queued packets is
drained in one ordered batch by the tick. -/
theorem c4_agent_queue_batch_witness :
    ∃ st2 pre post,
      main_thread
        { empty_state with
            agent_id_to_socket := [(("a1"), ⟨("s1"), 1⟩)]
            agent_id_to_agent :=
              [(("a1"),
                ⟨STATUS_INIT, ("a1"),
                 [⟨PACKET_TYPE_AGENT_ACTION, ("m"), ("a1"), []⟩,
                  ⟨PACKET_TYPE_INIT_DATA, ("m"), ("a1"), []⟩]⟩)] } =
        some (st2,
          pre ++
            [(⟨PACKET_TYPE_AGENT_ACTION, ("m"), ("a1"), []⟩ : Packet),
             ⟨PACKET_TYPE_INIT_DATA, ("m"), ("a1"), []⟩].map
              (fun p => ((⟨("s1"), 1⟩ : Socket), p)) ++ post) ∧
      lookupA st2.agent_id_to_agent ("a1") =
        some ⟨STATUS_INIT, ("a1"), []⟩ :=
  c4_agent_queue_batch
    { empty_state with
        agent_id_to_socket := [(("a1"), ⟨("s1"), 1⟩)]
        agent_id_to_agent :=
          [(("a1"),
            ⟨STATUS_INIT, ("a1"),
             [⟨PACKET_TYPE_AGENT_ACTION, ("m"), ("a1"), []⟩,
              ⟨PACKET_TYPE_INIT_DATA, ("m"), ("a1"), []⟩]⟩)] }
    ("a1") ⟨("s1"), 1⟩
    ⟨STATUS_INIT, ("a1"),
     [⟨PACKET_TYPE_AGENT_ACTION, ("m"), ("a1"), []⟩,
      ⟨PACKET_TYPE_INIT_DATA, ("m"), ("a1"), []⟩]⟩
    (by decide) (by decide) (by decide) (by decide) (by decide)
